import Mathlib

/-!
Verification of the hermes schema-migration tool (`main.py`,
`src/utils.py`, `src/migration_chain.py`, `src/schema.py`).

The embedding models:
* a migration unit's metadata (`MigrationInfo`, from `src/schema.py`);
* an on-disk migration directory (`MigDir`): its name, whether it is a
  directory, which of the files `info.json`, `info.toml`, `upgrade.sql`
  and `downgrade.sql` it contains, and the parsed content of `info.toml`
  when present;
* the chain builder (`MigrationChain.build_list` and
  `MigrationChain._find_first_migration`), with the doubly linked node
  structure represented as the list of node infos in forward order
  (node `k`'s `previous` is node `k - 1`, its `next` is node `k + 1`);
  the unbounded `while` loop is given explicit fuel, exhaustion being a
  distinguished non-termination outcome;
* the planning logic of the `upgrade` and `downgrade` commands
  (`main.py`), as functions from the chain's node list, the current
  version and the requested revision to either a plan or the Python
  error the command produces (raised exception or logged error);
* the statement executor `execute_sql_statements` and the
  initialization sequence `initialize_migration_context` /
  `create_migratino_table` (`src/utils.py`, `main.py`), with the
  database abstracted as an oracle saying which calls succeed.

Python string truthiness (`if not s:`) is modelled by `truthy`;
raised exceptions and logged-error early returns are `Except.error`
values tagged with the kind of failure.
-/

namespace Hermes

/-- Metadata of one migration unit, `MigrationInfo` in `src/schema.py`:
`message`, `version`, optional `previous_version` and `next_version`,
`creation_date`. -/
structure MigrationInfo where
  message : String
  version : String
  previous_version : Option String := none
  next_version : Option String := none
  creation_date : String
deriving Repr, DecidableEq

/-- One candidate migration directory as seen on disk: its name, whether
the path is a directory, which of the files checked or read by the code
exist, and the parsed `info.toml` content (`none` when the file is
missing or unreadable, in which case opening it raises
`FileNotFoundError`). -/
structure MigDir where
  name : String
  isDir : Bool
  hasInfoJson : Bool
  infoToml : Option MigrationInfo
  hasUpgradeSql : Bool
  hasDowngradeSql : Bool
deriving Repr, DecidableEq

/-- Python truthiness of an optional string: `None` and `""` are falsy,
every other string is truthy. -/
def truthy : Option String → Bool
  | none => false
  | some s => !(s == "")

/-- Errors a command run can end in: a raised `FileNotFoundError`
(opening a missing file), a raised `AttributeError` (attribute access on
`None`), a raised `ValueError`, an error logged followed by an early
return, and exhaustion of the fuel that bounds the unbounded Python
`while` loop. -/
inductive PyError where
  | fileNotFound (path : String)
  | attributeError (msg : String)
  | valueError (msg : String)
  | loggedError (msg : String)
  | nonTermination
deriving Repr, DecidableEq

/-- Opening and parsing `d/info.toml` (`open(info_file, "r")` followed by
`toml.load` in `src/migration_chain.py`): raises `FileNotFoundError`
when the file is absent. -/
def readInfoToml (d : MigDir) : Except PyError MigrationInfo :=
  match d.infoToml with
  | some i => Except.ok i
  | none => Except.error (PyError.fileNotFound (d.name ++ "/info.toml"))

/-- Scan a character list for the first occurrence of the separator
`--`: returns the characters before it and whether it occurs at all.
This is Python's `s.split("--")[0]` (the whole string when the
separator is absent) paired with `"--" in s`. -/
def sepSplitFirst : List Char → List Char × Bool
  | [] => ([], false)
  | '-' :: '-' :: _ => ([], true)
  | c :: rest =>
    let p := sepSplitFirst rest
    (c :: p.1, p.2)

/-- The version component of a folder name: Python's
`full_folder_name.split("--")[0]`. -/
def nameVersionPart (name : String) : String :=
  String.mk (sepSplitFirst name.data).1

/-- Python's `"--" in path.name`. -/
def nameHasSep (name : String) : Bool :=
  (sepSplitFirst name.data).2

/-- Function `is_valid_migration_directory` from `src/utils.py`: the path is a
directory, its name contains the separator `--`, and the files
`info.json`, `upgrade.sql` and `downgrade.sql` all exist. -/
def is_valid_migration_directory (d : MigDir) : Bool :=
  d.isDir && nameHasSep d.name && d.hasInfoJson
    && d.hasUpgradeSql && d.hasDowngradeSql

/-- Function `compare_migration_folder_name_with_version` from `src/utils.py`:
the first `--`-separated component of the folder name equals the
version, by exact string equality. -/
def compare_migration_folder_name_with_version
    (version full_folder_name : String) : Bool :=
  nameVersionPart full_folder_name == version

/-- The `for d in migration_dirs` search of `build_list`: the first
directory whose name's version component equals `v`. -/
def findNextDir (dirs : List MigDir) (v : String) : Option MigDir :=
  dirs.find? (fun d => compare_migration_folder_name_with_version v d.name)

/-- Method `MigrationChain._find_first_migration`: scan the valid directories
in order, parse each `info.toml` (raising on a missing file), and return
the first whose `previous_version` is falsy, or `None` when no directory
qualifies. -/
def find_first_migration : List MigDir → Except PyError (Option MigrationInfo)
  | [] => Except.ok none
  | d :: rest =>
    match readInfoToml d with
    | Except.error e => Except.error e
    | Except.ok info =>
      if truthy info.previous_version then find_first_migration rest
      else Except.ok (some info)

/-- The broken-chain message logged by `build_list` when `next_version`
resolves to no valid directory. -/
def brokenErrorMsg (v : String) : String :=
  "Migration chain broken: next_version " ++ v ++ " not found"

/-- The forward walk of `build_list` (`while current_migration.info.next_version`),
starting at the head's info and returning the node infos in forward
order together with the broken-link errors logged. The `while` loop is
bounded by explicit fuel; running out of fuel models non-termination. -/
def buildWalk (dirs : List MigDir) :
    MigrationInfo → Nat → Except PyError (List MigrationInfo × List String)
  | _, 0 => Except.error PyError.nonTermination
  | cur, fuel + 1 =>
    match cur.next_version with
    | none => Except.ok ([cur], [])
    | some v =>
      if v == "" then Except.ok ([cur], [])
      else
        match findNextDir dirs v with
        | none => Except.ok ([cur], [brokenErrorMsg v])
        | some d =>
          match readInfoToml d with
          | Except.error e => Except.error e
          | Except.ok info =>
            match buildWalk dirs info fuel with
            | Except.error e => Except.error e
            | Except.ok (nodes, errs) => Except.ok (cur :: nodes, errs)

/-- The chain produced by `build_list`: the node infos in forward order
(`head` is the first element, `tail` the last, an empty list standing
for `head = tail = None`), together with the broken-link errors
logged while building. -/
structure ChainResult where
  nodes : List MigrationInfo
  errors : List String
deriving Repr, DecidableEq

/-- Method `MigrationChain.build_list`: filter the directory entries through
`is_valid_migration_directory`, find the first migration, and if one
exists walk the `next_version` links forward to build the chain. -/
def build_list (allDirs : List MigDir) (fuel : Nat) :
    Except PyError ChainResult :=
  let dirs := allDirs.filter is_valid_migration_directory
  match find_first_migration dirs with
  | Except.error e => Except.error e
  | Except.ok none => Except.ok { nodes := [], errors := [] }
  | Except.ok (some c0) =>
    match buildWalk dirs c0 fuel with
    | Except.error e => Except.error e
    | Except.ok (nodes, errs) => Except.ok { nodes := nodes, errors := errs }

/-- Method `MigrationChain.find_by_version`: walk from `head` following `next`
and return the first node whose version matches; in the list embedding,
the index of that node. -/
def find_by_version (nodes : List MigrationInfo) (v : String) : Option Nat :=
  nodes.findIdx? (fun c => c.version == v)

/-- The planning part of the `upgrade` command in `main.py`, given the
built chain's nodes, the current version read from the marker table and
the requested revision: either the ordered list of nodes to run or the
error the command ends in. -/
def upgradePlan (nodes : List MigrationInfo) (current revision : String) :
    Except PyError (List MigrationInfo) :=
  if revision == "head" then
    match nodes.getLast? with
    | none =>
      Except.error (PyError.attributeError
        ("NoneType object has no attribute info"))
    | some t =>
      if t.version == current then Except.ok []
      else if current == "" then Except.ok nodes
      else
        match find_by_version nodes current with
        | none =>
          Except.error (PyError.valueError
            ("Current version " ++ current ++ " not found in migration chain"))
        | some i => Except.ok (nodes.drop (i + 1))
  else
    match find_by_version nodes revision with
    | none =>
      Except.error (PyError.valueError
        ("Target version " ++ revision ++ " not found in migration chain"))
    | some i =>
      if revision == current then Except.ok []
      else Except.ok ((nodes.drop i).take 1)

/-- The backward collection loop of the `downgrade` command
(`while migration and migration.info.version != revision`), over the
backward node list starting at the current node: `some plan` when a node
matching the target stops the walk (the target itself excluded from the
plan), `none` when the walk exhausts the list without finding it. -/
def takeUntilVersion : List MigrationInfo → String → Option (List MigrationInfo)
  | [], _ => none
  | c :: rest, rev =>
    if c.version == rev then some []
    else (takeUntilVersion rest rev).map (fun l => c :: l)

/-- The planning part of the `downgrade` command in `main.py`: with an
empty current version the command returns at once; otherwise the current
node must be found in the chain; target `"base"` unwinds every node from
the current one back to the head; a specific target must be found in the
chain, a target equal to the current version is a no-op, and otherwise
the plan is the backward walk stopping before the target node. -/
def downgradePlan (nodes : List MigrationInfo) (current revision : String) :
    Except PyError (List MigrationInfo) :=
  if current == "" then Except.ok []
  else
    match find_by_version nodes current with
    | none =>
      Except.error (PyError.loggedError
        ("Current version " ++ current ++ " not found in migration chain"))
    | some i =>
      let backList := (nodes.take (i + 1)).reverse
      if revision == "base" then Except.ok backList
      else
        match find_by_version nodes revision with
        | none =>
          Except.error (PyError.loggedError
            ("Target version " ++ revision ++ " not found in migration chain"))
        | some _ =>
          if revision == current then Except.ok []
          else
            match takeUntilVersion backList revision with
            | none =>
              Except.error (PyError.loggedError
                ("Cannot reach target version " ++ revision
                  ++ " from current version " ++ current))
            | some plan => Except.ok plan

/-- Whether a planning outcome leads to `run_migration` being called:
only a non-empty successful plan does; every error path and the
`no migration to run` path return before touching the database. -/
def runsMigrations : Except PyError (List MigrationInfo) → Bool
  | Except.ok p => !p.isEmpty
  | Except.error _ => false

/-- Function `execute_sql_statements` from `src/utils.py`, with the database
abstracted as an oracle saying which statements execute without raising.
Returns the Boolean result together with the list of statements actually
submitted to the cursor. The loop body returns `False` on the first
exception and — through its `else` clause — returns `True` as soon as
one statement succeeds, so at most the first statement is ever
submitted; an empty statement list returns `False`. -/
def execute_sql_statements (execOk : String → Bool) :
    List String → Bool × List String
  | [] => (false, [])
  | s :: _ => (execOk s, [s])

/-- Function `create_migratino_table` from `src/utils.py`, with the database
abstracted as a flag saying whether the `CREATE TABLE` statement
executes without raising. The exception handler logs and swallows the
failure: the function returns the list of errors logged and never
propagates the exception. -/
def create_migratino_table (execOk : Bool) : List String :=
  if execOk then [] else ["Failed to create migration table"]

/-- The database behaviour driving `initialize_migration_context`:
whether acquiring the connection for table creation succeeds, whether
the `CREATE TABLE` statement succeeds, and the result of reading the
marker (`none` for a read failure, `some v` for a successfully read
current version, `""` when the table is empty). -/
structure DbEnv where
  connectOk : Bool
  createExecOk : Bool
  readResult : Option String
deriving Repr, DecidableEq

/-- The observable outcome of `initialize_migration_context`: the errors
logged while ensuring the marker table, whether the marker read was
attempted at all, and the current version of the returned context
(`none` when the function returns `None` and the command aborts). -/
structure InitOutcome where
  createErrors : List String
  markerReadAttempted : Bool
  context : Option String
deriving Repr, DecidableEq

/-- Function `initialize_migration_context` from `main.py`: if acquiring the
connection fails the command aborts before any marker read; otherwise
`create_migratino_table` runs — swallowing any execution failure — and
the marker is read next regardless; a failed read (`None`) aborts, a
successful read yields the context. -/
def init_migration_context (env : DbEnv) : InitOutcome :=
  if !env.connectOk then
    { createErrors := [], markerReadAttempted := false, context := none }
  else
    let errs := create_migratino_table env.createExecOk
    match env.readResult with
    | none =>
      { createErrors := errs, markerReadAttempted := true, context := none }
    | some v =>
      { createErrors := errs, markerReadAttempted := true, context := some v }

/-- Whether a directory's parsed `info.toml` exists and carries a falsy
`previous_version` — the condition under which
`_find_first_migration` selects the directory as the chain head. -/
def hasNullPrev (d : MigDir) : Bool :=
  match d.infoToml with
  | some c => !(truthy c.previous_version)
  | none => false

/-- One step of the `previous` pointer in the list embedding of the
doubly linked chain: from node index `k` to `k - 1`, `none` at the
head (whose `previous` is `None`). -/
def prevStep : Option Nat → Option Nat
  | none => none
  | some k => if k = 0 then none else some (k - 1)

/-- Relation `Walks dirs c chain` says that starting from the head info `c`, the
forward walk of `build_list` over `dirs` resolves every `next_version`
reference and terminates, visiting exactly the infos in `chain` (in
order, starting with `c`): an unbroken forward chain. -/
inductive Walks (dirs : List MigDir) : MigrationInfo → List MigrationInfo → Prop
  | last (c : MigrationInfo) (h : truthy c.next_version = false) :
      Walks dirs c [c]
  | step (c c' : MigrationInfo) (v : String) (d : MigDir)
      (rest : List MigrationInfo)
      (h1 : c.next_version = some v) (h2 : (v == "") = false)
      (h3 : findNextDir dirs v = some d) (h4 : d.infoToml = some c')
      (h5 : Walks dirs c' rest) : Walks dirs c (c :: rest)

/-- Relation `WalksBroken dirs c chain v` says that starting from the head info
`c`, the forward walk of `build_list` over `dirs` visits exactly the
infos in `chain` and then stops because the last visited info's
`next_version` is the truthy `v`, which matches no directory in `dirs`:
a chain with one dangling reference. -/
inductive WalksBroken (dirs : List MigDir) :
    MigrationInfo → List MigrationInfo → String → Prop
  | here (c : MigrationInfo) (v : String)
      (h1 : c.next_version = some v) (h2 : (v == "") = false)
      (h3 : findNextDir dirs v = none) : WalksBroken dirs c [c] v
  | step (c c' : MigrationInfo) (v w : String) (d : MigDir)
      (rest : List MigrationInfo)
      (h1 : c.next_version = some v) (h2 : (v == "") = false)
      (h3 : findNextDir dirs v = some d) (h4 : d.infoToml = some c')
      (h5 : WalksBroken dirs c' rest w) : WalksBroken dirs c (c :: rest) w

/-- Concrete data: the head unit of a two-unit chain. -/
def infoA : MigrationInfo :=
  { message := "first", version := "va", previous_version := none,
    next_version := some ("vb"), creation_date := "d1" }

/-- Concrete data: the tail unit of a two-unit chain. -/
def infoB : MigrationInfo :=
  { message := "second", version := "vb", previous_version := some ("va"),
    next_version := none, creation_date := "d2" }

/-- Concrete data: the directory holding `infoA`. -/
def dirA : MigDir :=
  { name := "va--first", isDir := true, hasInfoJson := true,
    infoToml := some infoA, hasUpgradeSql := true, hasDowngradeSql := true }

/-- Concrete data: the directory holding `infoB`. -/
def dirB : MigDir :=
  { name := "vb--second", isDir := true, hasInfoJson := true,
    infoToml := some infoB, hasUpgradeSql := true, hasDowngradeSql := true }

/-- Concrete data: head of a chain whose second unit dangles. -/
def infoX : MigrationInfo :=
  { message := "x", version := "vx", previous_version := none,
    next_version := some ("vy"), creation_date := "d3" }

/-- Concrete data: a unit whose `next_version` reference `vz` resolves
to no directory. -/
def infoY : MigrationInfo :=
  { message := "y", version := "vy", previous_version := some ("vx"),
    next_version := some ("vz"), creation_date := "d4" }

/-- Concrete data: the directory holding `infoX`. -/
def dirX : MigDir :=
  { name := "vx--x", isDir := true, hasInfoJson := true,
    infoToml := some infoX, hasUpgradeSql := true, hasDowngradeSql := true }

/-- Concrete data: the directory holding `infoY`. -/
def dirY : MigDir :=
  { name := "vy--y", isDir := true, hasInfoJson := true,
    infoToml := some infoY, hasUpgradeSql := true, hasDowngradeSql := true }

/-- Concrete data: first unit of a three-unit chain `v1 → v2 → v3`. -/
def infoV1 : MigrationInfo :=
  { message := "m1", version := "v1", previous_version := none,
    next_version := some ("v2"), creation_date := "t1" }

/-- Concrete data: second unit of the three-unit chain. -/
def infoV2 : MigrationInfo :=
  { message := "m2", version := "v2", previous_version := some ("v1"),
    next_version := some ("v3"), creation_date := "t2" }

/-- Concrete data: third unit of the three-unit chain. -/
def infoV3 : MigrationInfo :=
  { message := "m3", version := "v3", previous_version := some ("v2"),
    next_version := none, creation_date := "t3" }

/-- Iterating `prevStep` from index `n` for `n` steps reaches index `0`:
in the list embedding, following `previous` from the node at position
`n` reaches the head in `n` steps. -/
theorem prevStep_iterate : ∀ n : Nat, prevStep^[n] (some n) = some 0
  | 0 => rfl
  | n + 1 => by
    rw [Function.iterate_succ_apply]
    have h : prevStep (some (n + 1)) = some n := by simp [prevStep]
    rw [h]
    exact prevStep_iterate n

/-- When every directory's `info.toml` parses and exactly one directory
has a falsy `previous_version`, `_find_first_migration` returns that
directory's info. -/
theorem find_first_eq_of_filter :
    ∀ (dirs : List MigDir) (d0 : MigDir) (c0 : MigrationInfo),
      (∀ d ∈ dirs, (d.infoToml).isSome = true) →
      dirs.filter hasNullPrev = [d0] → d0.infoToml = some c0 →
      find_first_migration dirs = Except.ok (some c0) := by
  intro dirs
  induction dirs with
  | nil =>
    intro d0 c0 _ huniq _
    simp at huniq
  | cons d rest ih =>
    intro d0 c0 hread huniq hd0
    obtain ⟨c, hc⟩ := Option.isSome_iff_exists.mp (hread d (by simp))
    rw [List.filter_cons] at huniq
    by_cases hnp : hasNullPrev d = true
    · rw [if_pos hnp] at huniq
      simp only [List.cons.injEq] at huniq
      obtain ⟨rfl, -⟩ := huniq
      have hcc : c = c0 := by
        rw [hc] at hd0
        exact Option.some.injEq .. ▸ hd0 |>.symm ▸ rfl
      have ht : truthy c.previous_version = false := by
        simp [hasNullPrev, hc] at hnp
        simpa using hnp
      rw [hcc] at hc ht
      simp [find_first_migration, readInfoToml, hc, ht]
    · have hnp' : hasNullPrev d = false := by
        simpa using hnp
      rw [if_neg (by simp [hnp'])] at huniq
      have ht : truthy c.previous_version = true := by
        by_contra hfalse
        have : hasNullPrev d = true := by
          simp [hasNullPrev, hc]
          simpa using hfalse
        exact hnp this
      simp only [find_first_migration, readInfoToml, hc, ht, if_pos]
      exact ih d0 c0 (fun x hx => hread x (by simp [hx])) huniq hd0

/-- An unbroken forward walk, given enough fuel, yields exactly the
chain's infos and no errors. -/
theorem buildWalk_of_walks {dirs : List MigDir} {c : MigrationInfo}
    {chain : List MigrationInfo} (h : Walks dirs c chain) :
    ∀ fuel, chain.length ≤ fuel →
      buildWalk dirs c fuel = Except.ok (chain, []) := by
  induction h with
  | last c hc =>
    intro fuel hfuel
    cases fuel with
    | zero => simp at hfuel
    | succ n =>
      cases hnv : c.next_version with
      | none => simp [buildWalk, hnv]
      | some v =>
        have hv : (v == "") = true := by
          rw [hnv] at hc
          simpa [truthy] using hc
        simp [buildWalk, hnv, hv]
  | step c c' v d rest h1 h2 h3 h4 h5 ih =>
    intro fuel hfuel
    cases fuel with
    | zero => simp at hfuel
    | succ n =>
      have hn : rest.length ≤ n := by
        simpa using hfuel
      simp [buildWalk, h1, h2, h3, readInfoToml, h4, ih n hn]

/-- A forward walk with one dangling reference, given enough fuel,
yields the resolvable prefix of the chain and exactly one broken-link
error naming the missing version. -/
theorem buildWalk_of_walksBroken {dirs : List MigDir} {c : MigrationInfo}
    {chain : List MigrationInfo} {w : String}
    (h : WalksBroken dirs c chain w) :
    ∀ fuel, chain.length ≤ fuel →
      buildWalk dirs c fuel = Except.ok (chain, [brokenErrorMsg w]) := by
  induction h with
  | here c v h1 h2 h3 =>
    intro fuel hfuel
    cases fuel with
    | zero => simp at hfuel
    | succ n => simp [buildWalk, h1, h2, h3]
  | step c c' v w' d rest h1 h2 h3 h4 h5 ih =>
    intro fuel hfuel
    cases fuel with
    | zero => simp at hfuel
    | succ n =>
      have hn : rest.length ≤ n := by
        simpa using hfuel
      simp [buildWalk, h1, h2, h3, readInfoToml, h4, ih n hn]

/-- A successful backward collection stops at a node matching the
target: every collected node differs from the target and the walked
list decomposes as the plan followed by the target node. -/
theorem takeUntilVersion_some :
    ∀ (l : List MigrationInfo) (rev : String) (p : List MigrationInfo),
      takeUntilVersion l rev = some p →
      (∀ c ∈ p, c.version ≠ rev) ∧
        ∃ t rest, l = p ++ t :: rest ∧ t.version = rev := by
  intro l
  induction l with
  | nil =>
    intro rev p h
    simp [takeUntilVersion] at h
  | cons c rest ih =>
    intro rev p h
    by_cases hc : (c.version == rev) = true
    · rw [takeUntilVersion, if_pos hc] at h
      obtain rfl : ([] : List MigrationInfo) = p := by
        simpa using h
      exact ⟨by simp, c, rest, by simp, beq_iff_eq.mp hc⟩
    · rw [takeUntilVersion, if_neg hc] at h
      obtain ⟨p', hp', rfl⟩ := Option.map_eq_some'.mp h
      obtain ⟨h1, t, r2, heq, htv⟩ := ih rev p' hp'
      refine ⟨?_, t, r2, by simp [heq], htv⟩
      intro x hx
      rcases List.mem_cons.mp hx with rfl | hx2
      · exact fun hbad => hc (beq_iff_eq.mpr hbad)
      · exact h1 x hx2

/-- An exhausted backward collection means no walked node matches the
target. -/
theorem takeUntilVersion_none :
    ∀ (l : List MigrationInfo) (rev : String),
      takeUntilVersion l rev = none → ∀ c ∈ l, c.version ≠ rev := by
  intro l
  induction l with
  | nil =>
    intro rev _ c hc
    simp at hc
  | cons c rest ih =>
    intro rev h x hx
    by_cases hc : (c.version == rev) = true
    · rw [takeUntilVersion, if_pos hc] at h
      exact absurd h (by simp)
    · rw [takeUntilVersion, if_neg hc] at h
      rcases List.mem_cons.mp hx with rfl | hx2
      · exact fun hbad => hc (beq_iff_eq.mpr hbad)
      · exact ih rev (by simpa using h) x hx2

/-- C1: evaluating `execute_sql_statements` at the statement list of the
repository's own success test, with a database on which every statement
succeeds: the function reports success after submitting only the first
of the three statements to the cursor. The `else: return True` inside
the statement loop returns as soon as the first statement succeeds,
so the function neither executes the statements one at a time in list
order nor waits for every statement before reporting success, contrary
to the specified semantics and to the repository's integration test,
which asserts both `INSERT`s took effect. -/
theorem execute_sql_statements_returns_after_first_success :
    execute_sql_statements (fun _ => true)
        ["CREATE TABLE test_table (id UInt32) ENGINE = Memory",
          "INSERT INTO test_table VALUES (1)",
          "INSERT INTO test_table VALUES (2)"] =
      (true, ["CREATE TABLE test_table (id UInt32) ENGINE = Memory"]) :=
  rfl

/-- C8: evaluating the initialization sequence when acquiring the
connection succeeds but the `CREATE TABLE` statement fails: the failure
is logged inside `create_migratino_table` and swallowed, so
`initialize_migration_context` proceeds to read the marker and returns
a context — planning and execution follow. The schema-ensure failure is
not fatal, contrary to the claim. -/
theorem create_table_failure_not_fatal :
    init_migration_context
        { connectOk := true, createExecOk := false, readResult := some "" } =
      { createErrors := ["Failed to create migration table"],
        markerReadAttempted := true,
        context := some "" } ∧
    create_migratino_table false = ["Failed to create migration table"] :=
  ⟨rfl, rfl⟩

/-- C10: when the built chain is empty (no valid unit with a falsy
`previous_version` was found, so `head` and `tail` are both `None`),
the `upgrade` command with revision `head` evaluates
`migration_list.tail.info.version` on `None` and fails with an
unhandled `AttributeError`, instead of producing an empty plan or a
warning. -/
theorem upgrade_head_empty_chain (allDirs : List MigDir) (fuel : Nat)
    (current : String) (r : ChainResult)
    (hb : build_list allDirs fuel = Except.ok r) (hempty : r.nodes = []) :
    upgradePlan r.nodes current ("head") =
      Except.error (PyError.attributeError
        ("NoneType object has no attribute info")) := by
  rw [hempty]
  rfl

/-- C10 witness: an empty migration directory builds an empty chain and
upgrading to `head` then raises `AttributeError`. -/
theorem upgrade_head_empty_chain_witness :
    upgradePlan (ChainResult.nodes { nodes := [], errors := [] }) ("")
        ("head") =
      Except.error (PyError.attributeError
        ("NoneType object has no attribute info")) :=
  upgrade_head_empty_chain [] 0 ("") { nodes := [], errors := [] } rfl rfl

/-- C2: over valid migration directories whose `info.toml` all parse,
with exactly one unit having a falsy `previous_version` (the head `c0`)
and the `next_version` references forming an unbroken forward chain
visiting the infos in `chain`, `build_list` succeeds with exactly the
`N = chain.length` nodes in reference order and no errors; the first
node is the head `c0` (whose `previous` is `None` by construction) and
the last node is the tail (whose `next` is `None`); in the list
embedding of the doubly linked nodes, following `previous` from the
tail index `N - 1` for `N - 1` steps reaches the head index `0`. -/
theorem build_list_unbroken_chain (allDirs : List MigDir)
    (chain : List MigrationInfo) (d0 : MigDir) (c0 : MigrationInfo)
    (fuel : Nat)
    (hvalid : ∀ d ∈ allDirs, is_valid_migration_directory d = true)
    (hread : ∀ d ∈ allDirs, (d.infoToml).isSome = true)
    (huniq : allDirs.filter hasNullPrev = [d0])
    (hd0 : d0.infoToml = some c0)
    (hwalk : Walks allDirs c0 chain)
    (hfuel : chain.length ≤ fuel) :
    build_list allDirs fuel = Except.ok { nodes := chain, errors := [] } ∧
    chain.head? = some c0 ∧
    prevStep^[chain.length - 1] (some (chain.length - 1)) = some 0 := by
  have hfe : allDirs.filter is_valid_migration_directory = allDirs :=
    List.filter_eq_self.mpr hvalid
  have hff := find_first_eq_of_filter allDirs d0 c0 hread huniq hd0
  have hbw := buildWalk_of_walks hwalk fuel hfuel
  refine ⟨?_, ?_, prevStep_iterate (chain.length - 1)⟩
  · simp [build_list, hfe, hff, hbw]
  · cases hwalk <;> rfl

/-- C2 witness: two directories `va → vb` build the two-node chain
`[infoA, infoB]` with no errors. -/
theorem build_list_unbroken_chain_witness :
    build_list [dirA, dirB] 2 =
      Except.ok { nodes := [infoA, infoB], errors := [] } ∧
    List.head? [infoA, infoB] = some infoA ∧
    prevStep^[List.length [infoA, infoB] - 1]
        (some (List.length [infoA, infoB] - 1)) = some 0 :=
  build_list_unbroken_chain [dirA, dirB] [infoA, infoB] dirA infoA 2
    (by decide) (by decide) (by decide) rfl
    (Walks.step infoA infoB ("vb") dirB [infoB] rfl rfl rfl rfl
      (Walks.last infoB rfl))
    (by decide)

/-- C3: under the same discovery hypotheses, when the forward walk
follows the chain up to a node whose truthy `next_version` `v` matches
no valid directory, `build_list` still succeeds (no fatal error is
raised), keeps every node built so far — the last resolvable node being
the tail — and logs exactly one broken-link error naming the missing
expected version `v`. -/
theorem build_list_broken_link (allDirs : List MigDir)
    (chain : List MigrationInfo) (d0 : MigDir) (c0 : MigrationInfo)
    (v : String) (fuel : Nat)
    (hvalid : ∀ d ∈ allDirs, is_valid_migration_directory d = true)
    (hread : ∀ d ∈ allDirs, (d.infoToml).isSome = true)
    (huniq : allDirs.filter hasNullPrev = [d0])
    (hd0 : d0.infoToml = some c0)
    (hwalk : WalksBroken allDirs c0 chain v)
    (hfuel : chain.length ≤ fuel) :
    build_list allDirs fuel =
      Except.ok { nodes := chain, errors := [brokenErrorMsg v] } ∧
    chain.head? = some c0 := by
  have hfe : allDirs.filter is_valid_migration_directory = allDirs :=
    List.filter_eq_self.mpr hvalid
  have hff := find_first_eq_of_filter allDirs d0 c0 hread huniq hd0
  have hbw := buildWalk_of_walksBroken hwalk fuel hfuel
  constructor
  · simp [build_list, hfe, hff, hbw]
  · cases hwalk <;> rfl

/-- C3 witness: two directories `vx → vy` where `vy`'s `next_version`
`vz` dangles: both nodes are kept and exactly one broken-link error
naming `vz` is reported. -/
theorem build_list_broken_link_witness :
    build_list [dirX, dirY] 2 =
      Except.ok
        { nodes := [infoX, infoY], errors := [brokenErrorMsg ("vz")] } ∧
    List.head? [infoX, infoY] = some infoX :=
  build_list_broken_link [dirX, dirY] [infoX, infoY] dirX infoX ("vz") 2
    (by decide) (by decide) (by decide) rfl
    (WalksBroken.step infoX infoY ("vy") ("vz") dirY [infoY] rfl rfl rfl rfl
      (WalksBroken.here infoY ("vz") rfl rfl rfl))
    (by decide)

/-- C4: planning an upgrade to `head` over a non-empty chain with tail
node `t`: when `current` equals the tail's version the plan is empty;
otherwise with an empty `current` the plan is the whole chain from head
to tail; with a non-empty `current` found at index `i` the plan is
every node strictly after it through the tail, in forward order; and a
non-empty `current` not present in the chain raises `ValueError`, with
no migration executed. -/
theorem upgrade_head_planning (nodes : List MigrationInfo)
    (t : MigrationInfo) (current : String)
    (htail : nodes.getLast? = some t) :
    (t.version = current →
      upgradePlan nodes current ("head") = Except.ok []) ∧
    (t.version ≠ current → current = "" →
      upgradePlan nodes current ("head") = Except.ok nodes) ∧
    (t.version ≠ current → current ≠ "" →
      (∀ i, find_by_version nodes current = some i →
        upgradePlan nodes current ("head") =
          Except.ok (nodes.drop (i + 1))) ∧
      (find_by_version nodes current = none →
        upgradePlan nodes current ("head") =
          Except.error (PyError.valueError
            ("Current version " ++ current
              ++ " not found in migration chain")) ∧
        runsMigrations (upgradePlan nodes current ("head")) = false)) := by
  refine ⟨?_, ?_, ?_⟩
  · intro h
    have hb : (t.version == current) = true := beq_iff_eq.mpr h
    simp [upgradePlan, htail, hb]
  · intro h hcur
    have hb : (t.version == current) = false := beq_eq_false_iff_ne.mpr h
    subst hcur
    simp [upgradePlan, htail, hb]
  · intro h hcur
    have hb : (t.version == current) = false := beq_eq_false_iff_ne.mpr h
    have hc : (current == "") = false := beq_eq_false_iff_ne.mpr hcur
    constructor
    · intro i hi
      simp [upgradePlan, htail, hb, hc, hi]
    · intro hn
      refine ⟨?_, ?_⟩ <;>
        simp [upgradePlan, htail, hb, hc, hn, runsMigrations]

/-- C4 witness: chain `va → vb` with current version `va`: the plan to
`head` is the single node after `va`, and the other cases hold at this
instance. -/
theorem upgrade_head_planning_witness :
    (MigrationInfo.version infoB = "va" →
      upgradePlan [infoA, infoB] ("va") ("head") = Except.ok []) ∧
    (MigrationInfo.version infoB ≠ "va" → ("va" : String) = "" →
      upgradePlan [infoA, infoB] ("va") ("head") =
        Except.ok [infoA, infoB]) ∧
    (MigrationInfo.version infoB ≠ "va" → ("va" : String) ≠ "" →
      (∀ i, find_by_version [infoA, infoB] ("va") = some i →
        upgradePlan [infoA, infoB] ("va") ("head") =
          Except.ok (List.drop (i + 1) [infoA, infoB])) ∧
      (find_by_version [infoA, infoB] ("va") = none →
        upgradePlan [infoA, infoB] ("va") ("head") =
          Except.error (PyError.valueError
            ("Current version " ++ "va"
              ++ " not found in migration chain")) ∧
        runsMigrations (upgradePlan [infoA, infoB] ("va") ("head")) =
          false)) :=
  upgrade_head_planning [infoA, infoB] infoB ("va") rfl

/-- C5: planning an upgrade to a specific target version `revision`:
when the target is not in the chain the command raises a
target-not-found `ValueError` and executes nothing; when the target
equals the current version the plan is empty; otherwise the plan is
exactly the single node `c` found for the target version — no
intermediate versions are included. -/
theorem upgrade_specific_planning (nodes : List MigrationInfo)
    (current revision : String) (hrev : revision ≠ "head") :
    (find_by_version nodes revision = none →
      upgradePlan nodes current revision =
        Except.error (PyError.valueError
          ("Target version " ++ revision
            ++ " not found in migration chain")) ∧
      runsMigrations (upgradePlan nodes current revision) = false) ∧
    (∀ i, find_by_version nodes revision = some i → revision = current →
      upgradePlan nodes current revision = Except.ok []) ∧
    (∀ i c, find_by_version nodes revision = some i → nodes[i]? = some c →
      revision ≠ current →
      upgradePlan nodes current revision = Except.ok [c]) := by
  have hr : (revision == "head") = false := beq_eq_false_iff_ne.mpr hrev
  refine ⟨?_, ?_, ?_⟩
  · intro hn
    refine ⟨?_, ?_⟩ <;> simp [upgradePlan, hr, hn, runsMigrations]
  · intro i hi heq
    have hb : (revision == current) = true := beq_iff_eq.mpr heq
    simp [upgradePlan, hr, hi, hb]
  · intro i c hi hc hne
    have hb : (revision == current) = false := beq_eq_false_iff_ne.mpr hne
    obtain ⟨hlt, hv⟩ := List.getElem?_eq_some.mp hc
    have hdrop : nodes.drop i = c :: nodes.drop (i + 1) := by
      rw [List.drop_eq_getElem_cons hlt, hv]
    simp [upgradePlan, hr, hi, hb, hdrop]

/-- C5 witness: chain `va → vb`, current `va`, target `vb`: the plan is
exactly the single node `infoB`, and the other cases hold at this
instance. -/
theorem upgrade_specific_planning_witness :
    (find_by_version [infoA, infoB] ("vb") = none →
      upgradePlan [infoA, infoB] ("va") ("vb") =
        Except.error (PyError.valueError
          ("Target version " ++ "vb"
            ++ " not found in migration chain")) ∧
      runsMigrations (upgradePlan [infoA, infoB] ("va") ("vb")) = false) ∧
    (∀ i, find_by_version [infoA, infoB] ("vb") = some i →
      ("vb" : String) = "va" →
      upgradePlan [infoA, infoB] ("va") ("vb") = Except.ok []) ∧
    (∀ i c, find_by_version [infoA, infoB] ("vb") = some i →
      [infoA, infoB][i]? = some c → ("vb" : String) ≠ "va" →
      upgradePlan [infoA, infoB] ("va") ("vb") = Except.ok [c]) :=
  upgrade_specific_planning [infoA, infoB] ("va") ("vb") (by decide)

/-- C6: planning a downgrade to `base` with a non-empty current
version: when the current version is not in the chain the command logs
a current-version-not-in-chain error and returns without executing
anything; when it is found at index `i`, the plan is the current node
followed by each of its predecessors via `previous` links until
exhausted — the reversed prefix of the chain up to the current node. -/
theorem downgrade_base_planning (nodes : List MigrationInfo)
    (current : String) (hcur : current ≠ "") :
    (find_by_version nodes current = none →
      downgradePlan nodes current ("base") =
        Except.error (PyError.loggedError
          ("Current version " ++ current
            ++ " not found in migration chain")) ∧
      runsMigrations (downgradePlan nodes current ("base")) = false) ∧
    (∀ i, find_by_version nodes current = some i →
      downgradePlan nodes current ("base") =
        Except.ok ((nodes.take (i + 1)).reverse)) := by
  have hc : (current == "") = false := beq_eq_false_iff_ne.mpr hcur
  constructor
  · intro hn
    refine ⟨?_, ?_⟩ <;> simp [downgradePlan, hc, hn, runsMigrations]
  · intro i hi
    simp [downgradePlan, hc, hi]

/-- C6 witness: chain `v1 → v2 → v3` with current version `v3`: the
plan to `base` is `[v3, v2, v1]` in that order. -/
theorem downgrade_base_planning_witness :
    downgradePlan [infoV1, infoV2, infoV3] ("v3") ("base") =
      Except.ok [infoV3, infoV2, infoV1] :=
  (downgrade_base_planning [infoV1, infoV2, infoV3] ("v3")
    (by decide)).2 2 rfl

/-- C7: planning a downgrade to a specific target version present in
the chain and different from the non-empty current version found at
index `i`: when the backward walk from the current node stops at a node
matching the target, the plan is exactly the nodes walked before it —
all differing from the target, which is never reverted, the walked
backward list decomposing as the plan followed by the target node; when
the backward walk exhausts without finding the target, no walked node
matches it and the command logs a target-unreachable error and
executes nothing. -/
theorem downgrade_specific_planning (nodes : List MigrationInfo)
    (current revision : String) (i : Nat)
    (hbase : revision ≠ "base") (hcur : current ≠ "")
    (hne : revision ≠ current)
    (hi : find_by_version nodes current = some i)
    (htgt : (find_by_version nodes revision).isSome = true) :
    (∀ p, takeUntilVersion ((nodes.take (i + 1)).reverse) revision = some p →
      downgradePlan nodes current revision = Except.ok p ∧
      (∀ c ∈ p, c.version ≠ revision) ∧
      ∃ t rest, (nodes.take (i + 1)).reverse = p ++ t :: rest ∧
        t.version = revision) ∧
    (takeUntilVersion ((nodes.take (i + 1)).reverse) revision = none →
      (∀ c ∈ (nodes.take (i + 1)).reverse, c.version ≠ revision) ∧
      downgradePlan nodes current revision =
        Except.error (PyError.loggedError
          ("Cannot reach target version " ++ revision
            ++ " from current version " ++ current)) ∧
      runsMigrations (downgradePlan nodes current revision) = false) := by
  have hc : (current == "") = false := beq_eq_false_iff_ne.mpr hcur
  have hb : (revision == "base") = false := beq_eq_false_iff_ne.mpr hbase
  have hrc : (revision == current) = false := beq_eq_false_iff_ne.mpr hne
  obtain ⟨j, hj⟩ := Option.isSome_iff_exists.mp htgt
  constructor
  · intro p hp
    obtain ⟨h1, h2⟩ := takeUntilVersion_some _ revision p hp
    refine ⟨?_, h1, h2⟩
    simp [downgradePlan, hc, hi, hb, hj, hrc, hp]
  · intro hp
    refine ⟨takeUntilVersion_none _ revision hp, ?_, ?_⟩ <;>
      simp [downgradePlan, hc, hi, hb, hj, hrc, hp, runsMigrations]

/-- C7 witness: chain `v1 → v2 → v3`, current `v3`, target `v1`: the
plan is `[v3, v2]` — the target `v1` itself is not reverted — and the
exhaustion case holds at this instance. -/
theorem downgrade_specific_planning_witness :
    (∀ p, takeUntilVersion
        ((List.take (2 + 1) [infoV1, infoV2, infoV3]).reverse) ("v1") =
          some p →
      downgradePlan [infoV1, infoV2, infoV3] ("v3") ("v1") =
        Except.ok p ∧
      (∀ c ∈ p, MigrationInfo.version c ≠ "v1") ∧
      ∃ t rest,
        (List.take (2 + 1) [infoV1, infoV2, infoV3]).reverse =
          p ++ t :: rest ∧ MigrationInfo.version t = "v1") ∧
    (takeUntilVersion
        ((List.take (2 + 1) [infoV1, infoV2, infoV3]).reverse) ("v1") =
          none →
      (∀ c ∈ (List.take (2 + 1) [infoV1, infoV2, infoV3]).reverse,
        MigrationInfo.version c ≠ "v1") ∧
      downgradePlan [infoV1, infoV2, infoV3] ("v3") ("v1") =
        Except.error (PyError.loggedError
          ("Cannot reach target version " ++ "v1"
            ++ " from current version " ++ "v3")) ∧
      runsMigrations (downgradePlan [infoV1, infoV2, infoV3] ("v3") ("v1")) =
        false) :=
  downgrade_specific_planning [infoV1, infoV2, infoV3] ("v3") ("v1") 2
    (by decide) (by decide) (by decide) rfl rfl

end Hermes
